import Mathlib

set_option maxRecDepth 100000

/-
Verification of the ci-bytecode-vm specification against its source.

The Rust source is shallowly embedded as follows.

* `i64` payloads are modelled as unbounded `Int`; two's-complement
  wrap-around is abstracted away (no settled statement depends on values
  near 2^63), except that division by zero — a Rust panic — is modelled
  explicitly by a `panic` outcome.
* `f64` payloads are modelled as exact rationals `Rat`; rounding, infinity
  and NaN are abstracted away.  No settled statement depends on the
  numeric value of a float result, only on variants and widening.
* `Vec<T>` becomes `List T` with index 0 at the bottom; `push` appends at
  the end, `pop` removes the last element, mirroring `Vec` exactly.
* `HashMap<String, Value>` becomes an association list with
  insert-replaces-existing-key semantics (iteration order is irrelevant
  to every statement proved here).
* `Rc<RwLock<...>>` shared-mutable payloads that no settled claim ever
  reads (`Function.chunk` through a call frame, `Closure.up_values`,
  `Class.methods`, `Instance.fields`, `BoundMethod.receiver`) are elided
  from the corresponding structures; the surrounding code is embedded
  against the remaining fields, and instruction operands (which the Rust
  code fetches through the current frame's chunk) are passed to the
  per-opcode step functions explicitly.
* Printing to stdout/stderr is elided; only state effects are modelled.
-/

/-- Compiled function object, from src/value.rs `struct Function`.
The `chunk` field (an `Rc<RwLock<Chunk>>`) is elided: no settled claim
reads instruction bytes through a frame; see the header comment. -/
structure Function where
  arity : Nat
  name : String
  up_value_count : Nat
deriving DecidableEq, Repr

/-- Runtime closure, from src/value.rs `struct Closure`.  The shared
`up_values` vector is elided (never read by a settled claim). -/
structure Closure where
  function : Function
deriving DecidableEq, Repr

/-- Native function descriptor, from src/value.rs `struct NativeFunction`.
The `function` pointer is passed separately to the VM step that calls it
(in the Rust source the natives are top-level `fn` items). -/
structure NativeFunction where
  name : String
  arity : Nat
deriving DecidableEq, Repr

/-- Tagged runtime value, from src/value.rs `enum Value`.  Payloads of
`Class`, `Instance` and `BoundMethod` are reduced to components that are
not behind shared-mutable references; no settled claim reads them (the
`PartialEq` catch-all and `is_falsely` catch-all treat them uniformly). -/
inductive Value where
  | int (i : Int)
  | float (f : Rat)
  | bool (b : Bool)
  | nil
  | str (s : String)
  | function (f : Function)
  | closure (c : Closure)
  | nativeFunction (f : NativeFunction)
  | runTimeError (s : String)
  | classObj (name : String)
  | instanceObj (className : String)
  | boundMethod (methodName : String)
deriving DecidableEq, Repr

/-- Truthiness, from src/value.rs `Value::is_falsely` (lines 213-223).
Note the `Int` and `Float` arms: zero is falsey in the source. -/
def Value.is_falsely : Value → Bool
  | .nil => true
  | .bool b => !b
  | .int i => i == 0
  | .float f => f == 0
  | _ => false

/-- Discriminant of a `Value`, used to state cross-variant properties. -/
def Value.variantTag : Value → Nat
  | .int _ => 0
  | .float _ => 1
  | .bool _ => 2
  | .nil => 3
  | .str _ => 4
  | .function _ => 5
  | .closure _ => 6
  | .nativeFunction _ => 7
  | .runTimeError _ => 8
  | .classObj _ => 9
  | .instanceObj _ => 10
  | .boundMethod _ => 11

/-- Equality on `Function`, from src/value.rs `impl PartialEq for Function`
(lines 156-160): compares names only. -/
def functionEq (f g : Function) : Bool :=
  f.name == g.name

/-- Value equality, from src/value.rs `impl PartialEq for Value`
(lines 103-119).  Note there is no `Closure` arm: a pair of closures
falls through to the catch-all and compares unequal. -/
def valueEq : Value → Value → Bool
  | .float f1, .float f2 => f1 == f2
  | .int i1, .int i2 => i1 == i2
  | .bool b1, .bool b2 => b1 == b2
  | .nil, .nil => true
  | .str s1, .str s2 => s1 == s2
  | .function f1, .function f2 => functionEq f1 f2
  | _, _ => false

/-- Bytecode operation codes, from src/chunk.rs `enum OpCode`
(lines 5-38).  The enum in src/chunk.rs ends at `CloseUpvalue`; the
`Class`/`GetProperty`/`SetProperty`/`Method`/`Invoke` opcodes referenced
by src/compiler.rs and src/vm.rs are absent from it (see the settled
statements about property access). -/
inductive OpCode where
  | ret
  | negate
  | add
  | subtract
  | multiply
  | divide
  | constant
  | nilOp
  | trueOp
  | falseOp
  | notOp
  | equal
  | greater
  | less
  | print
  | pop
  | defineGlobal
  | getGlobal
  | setGlobal
  | getLocal
  | setLocal
  | jumpIfFalse
  | jump
  | loop
  | duplicate
  | jumpIfTrue
  | call
  | closureOp
  | getUpvalue
  | setUpvalue
  | closeUpvalue
deriving DecidableEq, Repr

/-- Conversion to a byte, from src/chunk.rs `impl From<OpCode> for u8`
(lines 79-115). -/
def OpCode.toByte : OpCode → Nat
  | .ret => 0x01
  | .negate => 0x02
  | .add => 0x03
  | .subtract => 0x04
  | .multiply => 0x05
  | .divide => 0x06
  | .constant => 0x07
  | .nilOp => 0x08
  | .trueOp => 0x09
  | .falseOp => 0x0A
  | .notOp => 0x0B
  | .equal => 0x0C
  | .greater => 0x0D
  | .less => 0x0E
  | .print => 0x0F
  | .pop => 0x10
  | .defineGlobal => 0x11
  | .getGlobal => 0x12
  | .setGlobal => 0x13
  | .getLocal => 0x14
  | .setLocal => 0x15
  | .jumpIfFalse => 0x16
  | .jump => 0x17
  | .loop => 0x18
  | .duplicate => 0x19
  | .jumpIfTrue => 0x1A
  | .call => 0x1B
  | .closureOp => 0x1C
  | .getUpvalue => 0x1D
  | .setUpvalue => 0x1E
  | .closeUpvalue => 0x1F

/-- Conversion from a byte, from src/chunk.rs `impl From<u8> for OpCode`
(lines 40-77).  The Rust catch-all panics on an unknown byte; that is
modelled by `none`. -/
def OpCode.ofByte : Nat → Option OpCode
  | 0x01 => some .ret
  | 0x02 => some .negate
  | 0x03 => some .add
  | 0x04 => some .subtract
  | 0x05 => some .multiply
  | 0x06 => some .divide
  | 0x07 => some .constant
  | 0x08 => some .nilOp
  | 0x09 => some .trueOp
  | 0x0A => some .falseOp
  | 0x0B => some .notOp
  | 0x0C => some .equal
  | 0x0D => some .greater
  | 0x0E => some .less
  | 0x0F => some .print
  | 0x10 => some .pop
  | 0x11 => some .defineGlobal
  | 0x12 => some .getGlobal
  | 0x13 => some .setGlobal
  | 0x14 => some .getLocal
  | 0x15 => some .setLocal
  | 0x16 => some .jumpIfFalse
  | 0x17 => some .jump
  | 0x18 => some .loop
  | 0x19 => some .duplicate
  | 0x1A => some .jumpIfTrue
  | 0x1B => some .call
  | 0x1C => some .closureOp
  | 0x1D => some .getUpvalue
  | 0x1E => some .setUpvalue
  | 0x1F => some .closeUpvalue
  | _ => none

/-- Outcome of `VM::binary_op`: a pushed value, a runtime error carrying
the formatted message, or a Rust panic (integer division by zero). -/
inductive BinOutcome where
  | push (v : Value)
  | rtError (msg : String)
  | panicked
deriving DecidableEq, Repr

/-- Debug rendering of an opcode, mirroring the derived `Debug` names
used by the error message of `VM::binary_op`. -/
def OpCode.debugFmt : OpCode → String
  | .ret => "Return"
  | .negate => "Negate"
  | .add => "Add"
  | .subtract => "Subtract"
  | .multiply => "Multiply"
  | .divide => "Divide"
  | .constant => "Constant"
  | .nilOp => "Nil"
  | .trueOp => "True"
  | .falseOp => "False"
  | .notOp => "Not"
  | .equal => "Equal"
  | .greater => "Greater"
  | .less => "Less"
  | .print => "Print"
  | .pop => "Pop"
  | .defineGlobal => "DefineGlobal"
  | .getGlobal => "GetGlobal"
  | .setGlobal => "SetGlobal"
  | .getLocal => "GetLocal"
  | .setLocal => "SetLocal"
  | .jumpIfFalse => "JumpIfFalse"
  | .jump => "Jump"
  | .loop => "Loop"
  | .duplicate => "Duplicate"
  | .jumpIfTrue => "JumpIfTrue"
  | .call => "Call"
  | .closureOp => "Closure"
  | .getUpvalue => "GetUpvalue"
  | .setUpvalue => "SetUpvalue"
  | .closeUpvalue => "CloseUpvalue"

/-- Debug rendering of a value, mirroring the shape of the derived
`Debug` on `enum Value` (payload formatting of floats and of the heap
variants is abstracted; no settled statement inspects these strings). -/
def Value.debugFmt : Value → String
  | .int i => "Int(" ++ toString i ++ ")"
  | .float f => "Float(" ++ toString f ++ ")"
  | .bool b => "Bool(" ++ toString b ++ ")"
  | .nil => "Nil"
  | .str s => "String(" ++ reprStr s ++ ")"
  | .function f => "Function(" ++ f.name ++ ")"
  | .closure c => "Closure(" ++ c.function.name ++ ")"
  | .nativeFunction f => "NativeFunction(" ++ f.name ++ ")"
  | .runTimeError s => "RunTimeError(" ++ reprStr s ++ ")"
  | .classObj n => "Class(" ++ n ++ ")"
  | .instanceObj n => "Instance(" ++ n ++ ")"
  | .boundMethod n => "BoundMethod(" ++ n ++ ")"

/-- Error message of the catch-all arm of `VM::binary_op`
(src/vm.rs lines 198-206). -/
def binOpErrMsg (o : OpCode) (a b : Value) : String :=
  "Operands must be two numbers or two strings. Got " ++ o.debugFmt
    ++ " " ++ a.debugFmt ++ " " ++ b.debugFmt

/-- Core of `VM::binary_op` (src/vm.rs lines 144-208): the match on
`(op, a, b)` after popping `b` then `a`.  The Rust match is a single
flat list of arms; since those arms are pairwise disjoint, they are
regrouped here by opcode (one inner match per operation, arms in the
source's relative order) so that each compiled matcher stays small.
Rust `i64` division truncates toward zero (`Int.tdiv`) and panics when
the divisor is zero, modelled by the `panicked` outcome. -/
def binary_op : OpCode → Value → Value → BinOutcome
  | .add, a, b =>
    match a, b with
    | .float x, .float y => .push (.float (x + y))
    | .int x, .float y => .push (.float ((x : Rat) + y))
    | .float x, .int y => .push (.float (x + (y : Rat)))
    | .int x, .int y => .push (.int (x + y))
    | .str x, .str y => .push (.str (x ++ y))
    | x, y => .rtError (binOpErrMsg .add x y)
  | .subtract, a, b =>
    match a, b with
    | .float x, .float y => .push (.float (x - y))
    | .int x, .float y => .push (.float ((x : Rat) - y))
    | .float x, .int y => .push (.float (x - (y : Rat)))
    | .int x, .int y => .push (.int (x - y))
    | x, y => .rtError (binOpErrMsg .subtract x y)
  | .multiply, a, b =>
    match a, b with
    | .float x, .float y => .push (.float (x * y))
    | .int x, .float y => .push (.float ((x : Rat) * y))
    | .float x, .int y => .push (.float (x * (y : Rat)))
    | .int x, .int y => .push (.int (x * y))
    | x, y => .rtError (binOpErrMsg .multiply x y)
  | .divide, a, b =>
    match a, b with
    | .float x, .float y => .push (.float (x / y))
    | .int x, .float y => .push (.float ((x : Rat) / y))
    | .float x, .int y => .push (.float (x / (y : Rat)))
    | .int x, .int y => if y = 0 then .panicked else .push (.int (Int.tdiv x y))
    | x, y => .rtError (binOpErrMsg .divide x y)
  | .greater, a, b =>
    match a, b with
    | .float x, .float y => .push (.bool (decide (x > y)))
    | .int x, .float y => .push (.bool (decide ((x : Rat) > y)))
    | .float x, .int y => .push (.bool (decide (x > (y : Rat))))
    | .int x, .int y => .push (.bool (decide (x > y)))
    | x, y => .rtError (binOpErrMsg .greater x y)
  | .less, a, b =>
    match a, b with
    | .float x, .float y => .push (.bool (decide (x < y)))
    | .int x, .float y => .push (.bool (decide ((x : Rat) < y)))
    | .float x, .int y => .push (.bool (decide (x < (y : Rat))))
    | .int x, .int y => .push (.bool (decide (x < y)))
    | x, y => .rtError (binOpErrMsg .less x y)
  | .equal, a, b => .push (.bool (valueEq a b))
  | o, a, b => .rtError (binOpErrMsg o a b)

/-- Numeric-variant test for stating the error clause of `binary_op`. -/
def Value.isNumeric : Value → Bool
  | .int _ => true
  | .float _ => true
  | _ => false

/-- String-variant test for stating the error clause of `binary_op`. -/
def Value.isString : Value → Bool
  | .str _ => true
  | _ => false

/-- Runtime-error test on a `binary_op` outcome. -/
def BinOutcome.isRtError : BinOutcome → Bool
  | .rtError _ => true
  | _ => false

/-- Bytecode chunk, from src/chunk.rs `struct Chunk` (lines 155-160). -/
structure Chunk where
  code : List Nat
  constants : List Value
  lines : List Nat
deriving DecidableEq, Repr

/-- Appends a constant and returns its index, from src/chunk.rs
`Chunk::write_constant` (lines 177-181). -/
def Chunk.write_constant (c : Chunk) (v : Value) : Chunk × Nat :=
  let cs := c.constants ++ [v]
  ({ c with constants := cs }, cs.length - 1)

/-- The compile error reported when a chunk's constant pool index no
longer fits in a byte (src/compiler.rs line 244). -/
def tooManyConstantsMsg : String :=
  "Too many constants in one chunk."

/-- Result of `Compiler::make_constant`: the grown chunk, whether
`error(...)` was reported, and the returned byte. -/
structure MakeConstantResult where
  chunk : Chunk
  hadError : Bool
  byte : Nat
deriving DecidableEq, Repr

/-- Constant interning, from src/compiler.rs `Compiler::make_constant`
(lines 241-249): always appends via `write_constant`, then reports
`tooManyConstantsMsg` and returns 0 when the new index exceeds
`u8::MAX` (255). -/
def make_constant (c : Chunk) (v : Value) : MakeConstantResult :=
  let r := c.write_constant v
  if r.2 > 255 then
    { chunk := r.1, hadError := true, byte := 0 }
  else
    { chunk := r.1, hadError := false, byte := r.2 }

/-- Token kinds, reconstructed from their uses across
src/parser_rules.rs and src/compiler.rs (the declaring module
`token_type.rs` is referenced by src/main.rs but is not among the
provided sources).  Names with a `Kw`/`Lit`/`Tok` suffix avoid Lean
keywords; the mapping to the Rust variant is positional and one-to-one
with the 46 entries of the `RULES` table. -/
inductive TokenType where
  | leftParen
  | rightParen
  | leftBrace
  | rightBrace
  | comma
  | dot
  | minus
  | plus
  | semicolon
  | slash
  | star
  | colon
  | bang
  | bangEqual
  | equal
  | equalEqual
  | greater
  | greaterEqual
  | less
  | lessEqual
  | identifier
  | stringLit
  | number
  | andKw
  | classKw
  | elseKw
  | falseKw
  | funKw
  | forKw
  | ifKw
  | nilKw
  | orKw
  | printKw
  | returnKw
  | superKw
  | thisKw
  | trueKw
  | varKw
  | whileKw
  | switchKw
  | caseKw
  | breakKw
  | defaultKw
  | continueKw
  | eof
  | errorTok
deriving DecidableEq, Repr

/-- Parse precedence ladder, from src/compiler.rs `enum Precedence`
(lines 12-24); the derived `PartialOrd` follows declaration order,
captured by `Precedence.toNat`. -/
inductive Precedence where
  | none
  | assignment
  | or
  | and
  | equality
  | comparison
  | term
  | factor
  | unary
  | call
deriving DecidableEq, Repr

/-- Declaration-order rank of a precedence (the derived Rust ordering). -/
def Precedence.toNat : Precedence → Nat
  | .none => 0
  | .assignment => 1
  | .or => 2
  | .and => 3
  | .equality => 4
  | .comparison => 5
  | .term => 6
  | .factor => 7
  | .unary => 8
  | .call => 9

/-- Parser action referenced by a rule entry.  The Rust table stores
`fn(&Compiler, bool)` pointers; they are modelled as tags naming the
`Compiler` method (spec section 9 suggests exactly this encoding).
`dot` and `this` are the two public handlers of src/compiler.rs that
the table of src/parser_rules.rs never references. -/
inductive ParseFn where
  | grouping
  | callFn
  | unary
  | binary
  | number
  | stringFn
  | variable
  | andFn
  | orFn
  | literal
  | dot
  | thisFn
deriving DecidableEq, Repr

/-- One entry of the rule table, from src/parser_rules.rs
`struct ParseRule` (lines 6-10).  The Rust fields are named
`prefix`/`infix`; they carry an `Fn` suffix here. -/
structure ParseRule where
  prefixFn : Option ParseFn
  infixFn : Option ParseFn
  prec : Precedence
deriving DecidableEq, Repr

/-- The static rule table, from src/parser_rules.rs `RULES`
(lines 12-386), entry by entry in source order.  Note the `Dot` entry
(source lines 55-62): both handlers are `None` and the precedence is
`Precedence::None`. -/
def RULES : TokenType → ParseRule
  | .leftParen => ⟨some .grouping, some .callFn, .call⟩
  | .rightParen => ⟨none, none, .none⟩
  | .leftBrace => ⟨none, none, .none⟩
  | .rightBrace => ⟨none, none, .none⟩
  | .comma => ⟨none, none, .none⟩
  | .dot => ⟨none, none, .none⟩
  | .minus => ⟨some .unary, some .binary, .term⟩
  | .plus => ⟨none, some .binary, .term⟩
  | .semicolon => ⟨none, none, .none⟩
  | .slash => ⟨none, some .binary, .factor⟩
  | .star => ⟨none, some .binary, .factor⟩
  | .colon => ⟨none, none, .none⟩
  | .bang => ⟨some .unary, none, .none⟩
  | .bangEqual => ⟨none, some .binary, .equality⟩
  | .equal => ⟨none, none, .none⟩
  | .equalEqual => ⟨none, some .binary, .equality⟩
  | .greater => ⟨none, some .binary, .comparison⟩
  | .greaterEqual => ⟨none, some .binary, .comparison⟩
  | .less => ⟨none, some .binary, .comparison⟩
  | .lessEqual => ⟨none, some .binary, .comparison⟩
  | .identifier => ⟨some .variable, none, .none⟩
  | .stringLit => ⟨some .stringFn, none, .none⟩
  | .number => ⟨some .number, none, .none⟩
  | .andKw => ⟨none, some .andFn, .and⟩
  | .classKw => ⟨none, none, .none⟩
  | .elseKw => ⟨none, none, .none⟩
  | .falseKw => ⟨some .literal, none, .none⟩
  | .funKw => ⟨none, none, .none⟩
  | .forKw => ⟨none, none, .none⟩
  | .ifKw => ⟨none, none, .none⟩
  | .nilKw => ⟨some .literal, none, .none⟩
  | .orKw => ⟨none, some .orFn, .or⟩
  | .printKw => ⟨none, none, .none⟩
  | .returnKw => ⟨none, none, .none⟩
  | .superKw => ⟨none, none, .none⟩
  | .thisKw => ⟨none, none, .none⟩
  | .trueKw => ⟨some .literal, none, .none⟩
  | .varKw => ⟨none, none, .none⟩
  | .whileKw => ⟨none, none, .none⟩
  | .switchKw => ⟨none, none, .none⟩
  | .caseKw => ⟨none, none, .none⟩
  | .breakKw => ⟨none, none, .none⟩
  | .defaultKw => ⟨none, none, .none⟩
  | .continueKw => ⟨none, none, .none⟩
  | .eof => ⟨none, none, .none⟩
  | .errorTok => ⟨none, none, .none⟩

/-- Active function invocation, from src/vm.rs `struct CallFrame`
(lines 30-35).  In this source every frame owns a private `slots`
vector; `VM::push`/`pop`/`peek` operate on the last frame's `slots`,
not on the separate `VM::stack` field. -/
structure CallFrame where
  closure : Closure
  ip : Nat
  slots : List Value
deriving DecidableEq, Repr

/-- Interpreter state, from src/vm.rs `struct VM` (lines 24-28).  The
`stack` field exists alongside the per-frame `slots` vectors and is
touched only by `interpret`, `define_native` and `runtime_error`. -/
structure VMState where
  globals : List (String × Value)
  frames : List CallFrame
  stack : List Value
deriving DecidableEq, Repr

/-- Mirrors `Vec::push`: appends at the high end. -/
def vecPush (xs : List α) (v : α) : List α :=
  xs ++ [v]

/-- Mirrors `Vec::insert(i, v)`: shifts the suffix right.  Callers guard
the Rust out-of-range panic explicitly. -/
def vecInsert (xs : List α) (i : Nat) (v : α) : List α :=
  xs.take i ++ v :: xs.drop i

/-- Mirrors `VM::peek(distance)` (src/vm.rs lines 816-820): reads
`distance` below the top of the current frame's slots.  The Rust
`len - 1 - distance` underflows (to an out-of-range index, hence
`None`) when `distance ≥ len`, captured by the explicit guard. -/
def vecPeek (xs : List α) (distance : Nat) : Option α :=
  if distance + 1 ≤ xs.length then xs.get? (xs.length - 1 - distance) else none

/-- Replaces the last element of a list, if any (the common
`self.frames.last_mut()` update pattern). -/
def updateLast (xs : List α) (f : α → α) : List α :=
  match xs.getLast? with
  | none => xs
  | some x => xs.dropLast ++ [f x]

/-- Mirrors `HashMap::contains_key` on the globals table. -/
def globalsContains (g : List (String × Value)) (k : String) : Bool :=
  g.any (fun p => p.1 == k)

/-- Mirrors `HashMap::insert`: replaces the binding if the key is
present, otherwise adds it. -/
def globalsInsert : List (String × Value) → String → Value → List (String × Value)
  | [], k, v => [(k, v)]
  | (k', v') :: rest, k, v =>
      if k' == k then (k, v) :: rest else (k', v') :: globalsInsert rest k v

/-- Mirrors `HashMap::get` on the globals table. -/
def globalsGet (g : List (String × Value)) (k : String) : Option Value :=
  (g.find? (fun p => p.1 == k)).map (fun p => p.2)

/-- State effect of `VM::runtime_error` (src/vm.rs lines 710-739), with
the diagnostic printing elided: truncate `VM::stack` to the current
frame's slot count, then either pop that stack (last frame) or pop the
frame and advance the new top frame's ip. -/
def applyRuntimeError (st : VMState) : VMState :=
  match st.frames.getLast? with
  | none => st
  | some frame =>
    let stack2 := st.stack.take frame.slots.length
    if st.frames.length == 1 then
      { st with stack := stack2.dropLast }
    else
      { st with
        stack := stack2,
        frames := updateLast st.frames.dropLast (fun f => { f with ip := f.ip + 1 }) }

/-- Outcome of executing one opcode of the dispatch loop. -/
inductive StepOutcome where
  | next (st : VMState)
  | halt (st : VMState)
  | errored (st : VMState)
  | panicked
deriving DecidableEq, Repr

/-- The `OpCode::Return` arm of `VM::run` (src/vm.rs lines 266-289):
pop the result from the current frame's slots (`None` reports the
"Stack underflow" runtime error), pop the frame, halt with `Ok` when it
was the last frame (also popping `VM::stack` once), otherwise truncate
the parent frame's slots by the length of the popped frame's remaining
slots and push the result there.  The Rust `usize` subtraction in the
truncation panics when the popped frame holds more slots than the
parent. -/
def execReturn (st : VMState) : StepOutcome :=
  match st.frames.getLast? with
  | none => .panicked
  | some top =>
    match top.slots.getLast? with
    | none => .errored (applyRuntimeError st)
    | some result =>
      let rest := top.slots.dropLast
      let frames1 := st.frames.dropLast
      match frames1.getLast? with
      | none => .halt { st with frames := frames1, stack := st.stack.dropLast }
      | some parent =>
        if rest.length > parent.slots.length then .panicked
        else
          let newParent := { parent with
            slots := vecPush (parent.slots.take (parent.slots.length - rest.length)) result }
          .next { st with frames := updateLast frames1 (fun _ => newParent) }

/-- The `OpCode::SetGlobal` arm of `VM::run` (src/vm.rs lines 344-354),
with the name operand (fetched by `read_constant` in the source) passed
explicitly: if the name is bound, pop the top of the current frame's
slots and store it under the name; otherwise report the undefined
variable runtime error and return `RuntimeError`. -/
def execSetGlobal (name : String) (st : VMState) : StepOutcome :=
  if globalsContains st.globals name then
    match st.frames.getLast? with
    | none => .panicked
    | some top =>
      match top.slots.getLast? with
      | none => .panicked
      | some v =>
        .next { st with
          globals := globalsInsert st.globals name v,
          frames := updateLast st.frames (fun f => { f with slots := f.slots.dropLast }) }
  else
    .errored (applyRuntimeError st)

/-- The `OpCode::Not` arm of `VM::run` (src/vm.rs lines 315-318): pop a
value and push the boolean of its falsiness. -/
def execNot (st : VMState) : StepOutcome :=
  match st.frames.getLast? with
  | none => .panicked
  | some top =>
    match top.slots.getLast? with
    | none => .panicked
    | some v =>
      .next { st with
        frames := updateLast st.frames
          (fun f => { f with slots := vecPush f.slots.dropLast (.bool v.is_falsely) }) }

/-- The `OpCode::JumpIfFalse` arm of `VM::run` (src/vm.rs
lines 391-396), with the already-fetched offset passed explicitly:
advance the ip by the offset iff `peek(0)` is falsey; the operand is
not popped. -/
def execJumpIfFalse (offset : Nat) (st : VMState) : StepOutcome :=
  match st.frames.getLast? with
  | none => .panicked
  | some top =>
    match vecPeek top.slots 0 with
    | none => .panicked
    | some v =>
      if v.is_falsely then
        .next { st with frames := updateLast st.frames (fun f => { f with ip := f.ip + offset }) }
      else
        .next st

/-- The `OpCode::JumpIfTrue` arm of `VM::run` (src/vm.rs
lines 397-402): advance the ip by the offset iff `peek(0)` is not
falsey. -/
def execJumpIfTrue (offset : Nat) (st : VMState) : StepOutcome :=
  match st.frames.getLast? with
  | none => .panicked
  | some top =>
    match vecPeek top.slots 0 with
    | none => .panicked
    | some v =>
      if !v.is_falsely then
        .next { st with frames := updateLast st.frames (fun f => { f with ip := f.ip + offset }) }
      else
        .next st

/-- Outcome of `VM::call` / `VM::call_value`: the returned boolean (with
the runtime-error state effect applied on `false`), or a Rust panic. -/
inductive CallOutcome where
  | ok (st : VMState)
  | failed (st : VMState)
  | panicked
deriving DecidableEq, Repr

/-- The frame-pushing helper, from src/vm.rs `VM::call`
(lines 676-708): reject on arity mismatch (runtime error, return
false); otherwise — with no check of the frame count against
`FRAMES_MAX` anywhere — insert `Nil` into the current frame's slots at
`len - arg_count` (skipped for initializers), split off the top
`arg_count + 1` slots into the new frame, and push that frame.  The
`usize` subtractions panic when the current frame holds too few
slots. -/
def call (closure : Closure) (arg_count : Nat) (is_init : Bool) (st : VMState) : CallOutcome :=
  if arg_count ≠ closure.function.arity then .failed (applyRuntimeError st)
  else
    match st.frames.getLast? with
    | none => .panicked
    | some frame =>
      if !is_init && frame.slots.length < arg_count then .panicked
      else
        let slots1 :=
          if is_init then frame.slots
          else vecInsert frame.slots (frame.slots.length - arg_count) Value.nil
        if slots1.length < arg_count + 1 then .panicked
        else
          let parentSlots := slots1.take (slots1.length - arg_count - 1)
          let newSlots := slots1.drop (slots1.length - arg_count - 1)
          .ok { st with
            frames := updateLast st.frames (fun f => { f with slots := parentSlots })
              ++ [{ closure := closure, ip := 0, slots := newSlots }] }

/-- Argument collection for a native call, from src/vm.rs
`VM::native_call` (lines 667-674): pop `arg_count` values one by one
(top first), reverse them back into source order, and apply the native
function.  Returns `none` where the Rust `unwrap` would panic. -/
def native_call (f : List Value → Value) (arg_count : Nat) (st : VMState) :
    Option (Value × VMState) :=
  match st.frames.getLast? with
  | none => none
  | some frame =>
    if frame.slots.length < arg_count then none
    else
      let args := frame.slots.drop (frame.slots.length - arg_count)
      some (f args,
        { st with
          frames := updateLast st.frames
            (fun fr => { fr with slots := fr.slots.take (fr.slots.length - arg_count) }) })

/-- The `NativeFunction` arm of `VM::call_value` (src/vm.rs
lines 650-659): run `native_call`, then truncate the current frame's
slots by `arg_count` again, pop once more (the `Option` is discarded,
so an empty stack does not panic here), push the native's result
whatever it is — a `RunTimeError` result included — and return true. -/
def call_value_native (f : List Value → Value) (arg_count : Nat) (st : VMState) : CallOutcome :=
  match native_call f arg_count st with
  | none => .panicked
  | some (result, st1) =>
    match st1.frames.getLast? with
    | none => .panicked
    | some frame =>
      if frame.slots.length < arg_count then .panicked
      else
        .ok { st1 with
          frames := updateLast st1.frames (fun fr =>
            { fr with slots :=
                vecPush ((fr.slots.take (fr.slots.length - arg_count)).dropLast) result }) }

/-- Display form of a value, from src/value.rs `impl Display for Value`
(lines 225-249); float formatting is abstracted to `toString` of the
rational payload. -/
def display : Value → String
  | .int i => toString i
  | .float f => toString f
  | .bool b => toString b
  | .nil => "nil"
  | .str s => s
  | .function f => "<fn " ++ f.name ++ ">"
  | .closure c => "<fn " ++ c.function.name ++ ">"
  | .nativeFunction f => "<native fn " ++ f.name ++ ">"
  | .runTimeError s => s
  | .classObj n => "<class " ++ n ++ ">"
  | .instanceObj n => "<instance " ++ n ++ ">"
  | .boundMethod n => "<bound method " ++ n ++ ">"

/-- The `throw` native, from src/vm.rs `throw_native` (lines 62-64):
wraps the display form of its first argument in a `RunTimeError` value.
The Rust `args[0]` index panic is unreachable in the settled statements
(the native is always applied to one argument there). -/
def throw_native : List Value → Value
  | v :: _ => .runTimeError (display v)
  | [] => .runTimeError ""

/-- The six binary opcodes covered by the arithmetic/comparison
statement (spec section 4.E). -/
def arithCompOps : List OpCode :=
  [.add, .subtract, .multiply, .divide, .greater, .less]

/-- All 46 token kinds, for quantifier-free statements over the rule
table. -/
def allTokenTypes : List TokenType :=
  [.leftParen, .rightParen, .leftBrace, .rightBrace, .comma, .dot, .minus,
   .plus, .semicolon, .slash, .star, .colon, .bang, .bangEqual, .equal,
   .equalEqual, .greater, .greaterEqual, .less, .lessEqual, .identifier,
   .stringLit, .number, .andKw, .classKw, .elseKw, .falseKw, .funKw,
   .forKw, .ifKw, .nilKw, .orKw, .printKw, .returnKw, .superKw, .thisKw,
   .trueKw, .varKw, .whileKw, .switchKw, .caseKw, .breakKw, .defaultKw,
   .continueKw, .eof, .errorTok]

/-- A chunk whose constant pool already holds 255 entries. -/
def chunk255 : Chunk :=
  ⟨[], List.replicate 255 Value.nil, []⟩

/-- A zero-arity closure used by the concrete execution states below. -/
def cl0 : Closure :=
  ⟨⟨0, "f", 0⟩⟩

/-- Concrete state for the `Return` statements: the caller frame holds
four values, the returning frame holds four slots (slot 0 plus two
locals plus the return value). -/
def retSt : VMState :=
  { globals := [],
    stack := [],
    frames := [⟨cl0, 0, [.str "keep", .str "clobbered", .nil, .nil]⟩,
               ⟨cl0, 5, [.nil, .int 1, .int 2, .int 9]⟩] }

/-- Concrete state for the native-call statements: one caller value,
then the native callee, then its single argument. -/
def natSt : VMState :=
  { globals := [],
    stack := [],
    frames := [⟨cl0, 0, [.str "below", .nativeFunction ⟨"throw", 1⟩, .str "boom"]⟩] }

/-- Concrete state for the `SetGlobal` statements: `x` is bound and the
assigned value 5 sits on top of one caller value. -/
def sgSt : VMState :=
  { globals := [("x", .nil)],
    stack := [],
    frames := [⟨cl0, 0, [.str "keep", .int 5]⟩] }

/-- An empty frame for padding deep call stacks. -/
def frame64 : CallFrame :=
  ⟨cl0, 0, []⟩

/-- Concrete state with 64 active call frames whose top frame holds a
zero-argument callee, about to execute a `Call`. -/
def st64 : VMState :=
  { globals := [],
    stack := [],
    frames := List.replicate 63 frame64 ++ [⟨cl0, 0, [.closure cl0]⟩] }

/-- The state after `call` pushes the 65th frame onto `st64`. -/
def st65 : VMState :=
  { globals := [],
    stack := [],
    frames := (List.replicate 63 frame64 ++ [⟨cl0, 0, [.closure cl0]⟩])
      ++ [⟨cl0, 0, [.nil]⟩] }

/-- C1 counterexample: the claim asserts that every value other than
`Nil` and `Bool(false)` — explicitly including `Int(0)` — is truthy,
but `Value::is_falsely` has an `Int` arm making `Int(0)` falsey. -/
theorem c1_counterexample : Value.is_falsely (.int 0) = true := by
  decide

/-- C1 amended: a value is falsey iff it is `Nil`, `Bool(false)`,
`Int(0)` or `Float(0.0)`; every other value, including every string, is
truthy (this is the predicate consulted by `Not`, `JumpIfFalse` and
`JumpIfTrue`). -/
theorem c1_truthiness_amended :
    ∀ v : Value,
      v.is_falsely = true ↔ (v = .nil ∨ v = .bool false ∨ v = .int 0 ∨ v = .float 0) := by
  intro v
  cases v <;> simp [Value.is_falsely]

/-- C5 counterexample: the claim asserts closure equality compares the
function name, but the `PartialEq` match on `Value` has no
`Closure` arm — two closures over the same named function compare
unequal through the catch-all. -/
theorem c5_counterexample :
    valueEq (.closure ⟨⟨0, "f", 0⟩⟩) (.closure ⟨⟨0, "f", 0⟩⟩) = false := by
  decide

/-- C5 amended: value equality is false across variants, component-wise
within `Int`/`Float`/`Bool`/`Nil`/`String`, compares names for
`Function` values, never coerces `Int` to `Float`, and is constantly
false on pairs of `Closure` values; the `Equal` instruction pushes
exactly this predicate. -/
theorem c5_value_eq_amended :
    (∀ v w : Value, v.variantTag ≠ w.variantTag → valueEq v w = false) ∧
    (∀ i j : Int, valueEq (.int i) (.int j) = (i == j)) ∧
    (∀ x y : Rat, valueEq (.float x) (.float y) = (x == y)) ∧
    (∀ a b : Bool, valueEq (.bool a) (.bool b) = (a == b)) ∧
    (valueEq .nil .nil = true) ∧
    (∀ s t : String, valueEq (.str s) (.str t) = (s == t)) ∧
    (∀ f g : Function, valueEq (.function f) (.function g) = (f.name == g.name)) ∧
    (∀ c d : Closure, valueEq (.closure c) (.closure d) = false) ∧
    (∀ (i : Int) (x : Rat),
      valueEq (.int i) (.float x) = false ∧ valueEq (.float x) (.int i) = false) ∧
    (∀ a b : Value, binary_op .equal a b = .push (.bool (valueEq a b))) := by
  refine ⟨?_, ?_, ?_, ?_, rfl, ?_, ?_, ?_, ?_, ?_⟩
  · intro v w h
    cases v <;> cases w <;> simp_all [Value.variantTag, valueEq]
  · intro i j; rfl
  · intro x y; rfl
  · intro a b; rfl
  · intro s t; rfl
  · intro f g; rfl
  · intro c d; rfl
  · intro i x; exact ⟨rfl, rfl⟩
  · intro a b; cases a <;> cases b <;> rfl

/-- C5 witness: the cross-variant clause of the amended statement at a
concrete pair. -/
theorem c5_value_eq_amended_witness : valueEq (.int 1) (.bool true) = false :=
  c5_value_eq_amended.1 (.int 1) (.bool true) (by decide)

/-- C6: the claim (and spec section 4.D) requires the dot token to be an
infix rule at `Call` precedence dispatching `Compiler::dot`, and
src/vm.rs implements the corresponding opcodes — but the `RULES` table
of src/parser_rules.rs maps `Dot` to an empty rule, so `Compiler::dot`
is referenced by no table entry and `expr.ident` never parses (the
opcodes it would emit are also missing from the `OpCode` enum of
src/chunk.rs).  This theorem evaluates the table at the failing
token. -/
theorem c6_dot_rule_unwired :
    RULES TokenType.dot = ⟨none, none, Precedence.none⟩ ∧
    (RULES TokenType.dot).prec.toNat = 0 ∧
    allTokenTypes.all
      (fun t => ((RULES t).infixFn != some ParseFn.dot)
        && ((RULES t).prefixFn != some ParseFn.dot)) = true := by
  refine ⟨rfl, rfl, ?_⟩
  decide

/-- C6 support: the token list used above is exhaustive. -/
theorem allTokenTypes_complete : ∀ t : TokenType, t ∈ allTokenTypes := by
  intro t
  cases t <;> simp [allTokenTypes]

/-- C9 counterexample: the claim asserts the 256th constant of a chunk
reports the compile error, but on a pool of 255 constants
`make_constant` hands out index 255 (which still fits a byte) with no
error. -/
theorem c9_counterexample :
    chunk255.constants.length = 255 ∧
    (make_constant chunk255 Value.nil).hadError = false ∧
    (make_constant chunk255 Value.nil).byte = 255 := by
  refine ⟨?_, ?_, ?_⟩ <;> decide

/-- C9 amended: `make_constant` reports "Too many constants in one
chunk." exactly when the chunk already holds at least 256 constants
(i.e. on the 257th and later additions, whose index exceeds 255); the
returned index always fits in a single byte (0 is returned on error),
and the value is appended to the pool either way. -/
theorem c9_make_constant_amended :
    ∀ (c : Chunk) (v : Value),
      ((make_constant c v).hadError = true ↔ c.constants.length ≥ 256) ∧
      (make_constant c v).byte ≤ 255 ∧
      (make_constant c v).chunk.constants = c.constants ++ [v] ∧
      (make_constant c v).byte =
        if c.constants.length ≥ 256 then 0 else c.constants.length := by
  intro c v
  have hl : (c.constants ++ [v]).length - 1 = c.constants.length := by simp
  simp only [make_constant, Chunk.write_constant, hl]
  split
  · rename_i h
    exact ⟨by simp; omega, by simp, by simp, by simp; rw [if_pos (by omega)]⟩
  · rename_i h
    exact ⟨by simp; omega, by simp; omega, by simp, by simp; rw [if_neg (by omega)]⟩

/-- C10: converting any opcode to its byte and back yields the opcode;
on the byte range 0x01-0x1F the conversions are mutually inverse, and
distinct opcodes map to distinct bytes. -/
theorem c10_opcode_roundtrip :
    (∀ op : OpCode, OpCode.ofByte op.toByte = some op) ∧
    (∀ b : Nat, 1 ≤ b → b ≤ 31 → Option.map OpCode.toByte (OpCode.ofByte b) = some b) ∧
    (∀ op op' : OpCode, op.toByte = op'.toByte → op = op') := by
  refine ⟨?_, ?_, ?_⟩
  · intro op; cases op <;> rfl
  · intro b h1 h2
    interval_cases b <;> rfl
  · intro op op' h
    have h1 : OpCode.ofByte op.toByte = some op := by cases op <;> rfl
    have h2 : OpCode.ofByte op'.toByte = some op' := by cases op' <;> rfl
    rw [h] at h1
    rw [h1] at h2
    exact (Option.some.injEq _ _).mp h2

/-- C10 witness: the inverse direction and injectivity at concrete
inputs. -/
theorem c10_opcode_roundtrip_witness :
    Option.map OpCode.toByte (OpCode.ofByte 27) = some 27 :=
  c10_opcode_roundtrip.2.1 27 (by decide) (by decide)

/-- C2 counterexample: the claim states that for the six listed
operations two `Int` operands produce an `Int` result, but `Greater`
(and `Less`) on two `Int`s pushes a `Bool`. -/
theorem c2_counterexample :
    binary_op .greater (.int 1) (.int 2) = .push (.bool false) := by
  decide

/-- C2 amended: for `Add`/`Subtract`/`Multiply`/`Divide` two `Int`
operands produce an `Int` (truncating division for `Divide`, whose
Rust division panics on a zero divisor) and any `Float` operand widens
both to `Float`; `Greater`/`Less` push the `Bool` of the comparison
computed after the same widening; `Add` on two `String`s pushes the
concatenation; any other operand combination for these six operations
reports a runtime error. -/
theorem c2_binary_op_amended :
    (∀ a b : Int,
      binary_op .add (.int a) (.int b) = .push (.int (a + b)) ∧
      binary_op .subtract (.int a) (.int b) = .push (.int (a - b)) ∧
      binary_op .multiply (.int a) (.int b) = .push (.int (a * b)) ∧
      (b ≠ 0 → binary_op .divide (.int a) (.int b) = .push (.int (Int.tdiv a b))) ∧
      binary_op .greater (.int a) (.int b) = .push (.bool (decide (a > b))) ∧
      binary_op .less (.int a) (.int b) = .push (.bool (decide (a < b)))) ∧
    (∀ x y : Rat,
      binary_op .add (.float x) (.float y) = .push (.float (x + y)) ∧
      binary_op .subtract (.float x) (.float y) = .push (.float (x - y)) ∧
      binary_op .multiply (.float x) (.float y) = .push (.float (x * y)) ∧
      binary_op .divide (.float x) (.float y) = .push (.float (x / y)) ∧
      binary_op .greater (.float x) (.float y) = .push (.bool (decide (x > y))) ∧
      binary_op .less (.float x) (.float y) = .push (.bool (decide (x < y)))) ∧
    (∀ (a : Int) (y : Rat),
      binary_op .add (.int a) (.float y) = .push (.float ((a : Rat) + y)) ∧
      binary_op .subtract (.int a) (.float y) = .push (.float ((a : Rat) - y)) ∧
      binary_op .multiply (.int a) (.float y) = .push (.float ((a : Rat) * y)) ∧
      binary_op .divide (.int a) (.float y) = .push (.float ((a : Rat) / y)) ∧
      binary_op .greater (.int a) (.float y) = .push (.bool (decide ((a : Rat) > y))) ∧
      binary_op .less (.int a) (.float y) = .push (.bool (decide ((a : Rat) < y))) ∧
      binary_op .add (.float y) (.int a) = .push (.float (y + (a : Rat))) ∧
      binary_op .subtract (.float y) (.int a) = .push (.float (y - (a : Rat))) ∧
      binary_op .multiply (.float y) (.int a) = .push (.float (y * (a : Rat))) ∧
      binary_op .divide (.float y) (.int a) = .push (.float (y / (a : Rat))) ∧
      binary_op .greater (.float y) (.int a) = .push (.bool (decide (y > (a : Rat)))) ∧
      binary_op .less (.float y) (.int a) = .push (.bool (decide (y < (a : Rat))))) ∧
    (∀ s t : String, binary_op .add (.str s) (.str t) = .push (.str (s ++ t))) ∧
    (∀ (op : OpCode) (a b : Value), op ∈ arithCompOps →
      ¬(a.isNumeric = true ∧ b.isNumeric = true) →
      ¬(op = .add ∧ a.isString = true ∧ b.isString = true) →
      (binary_op op a b).isRtError = true) := by
  refine ⟨?_, ?_, ?_, ?_, ?_⟩
  · intro a b
    exact ⟨by simp [binary_op], by simp [binary_op], by simp [binary_op],
      fun h => by simp [binary_op, h], by simp [binary_op], by simp [binary_op]⟩
  · intro x y
    exact ⟨by simp [binary_op], by simp [binary_op], by simp [binary_op],
      by simp [binary_op], by simp [binary_op], by simp [binary_op]⟩
  · intro a y
    exact ⟨by simp [binary_op], by simp [binary_op], by simp [binary_op],
      by simp [binary_op], by simp [binary_op], by simp [binary_op],
      by simp [binary_op], by simp [binary_op], by simp [binary_op],
      by simp [binary_op], by simp [binary_op], by simp [binary_op]⟩
  · intro s t
    simp [binary_op]
  · intro op a b hop hnum hstr
    fin_cases hop <;>
      cases a <;> cases b <;>
        simp_all [binary_op, Value.isNumeric, Value.isString, BinOutcome.isRtError]

/-- C2 witness: the amended statement applied at concrete operands,
discharging the nonzero-divisor and operand-shape hypotheses. -/
theorem c2_binary_op_amended_witness :
    binary_op .divide (.int 7) (.int 2) = .push (.int (Int.tdiv 7 2)) ∧
    (binary_op .greater (.str "a") (.int 1)).isRtError = true :=
  ⟨(c2_binary_op_amended.1 7 2).2.2.2.1 (by decide),
   c2_binary_op_amended.2.2.2.2 .greater (.str "a") (.int 1)
     (by decide) (by decide) (by decide)⟩

/-- Updating the last element of a list extended by `a` rewrites to the
obvious concatenation. -/
theorem updateLast_concat (l : List α) (a : α) (f : α → α) :
    updateLast (l ++ [a]) f = l ++ [f a] := by
  simp [updateLast, List.getLast?_concat, List.dropLast_concat]

/-- The runtime-error unwinding never touches the globals table. -/
theorem applyRuntimeError_globals (st : VMState) :
    (applyRuntimeError st).globals = st.globals := by
  unfold applyRuntimeError
  split
  · rfl
  · split <;> rfl

/-- C3 counterexample: the claim asserts that `Return` removes exactly
the returning frame's slots and leaves the caller's operands unchanged;
on this state (caller slots `[keep, clobbered, nil, nil]`, returning
frame slots `[nil, 1, 2]` after the result 9 is popped) the caller is
left with `[keep, 9]` — three of its own values are gone. -/
theorem c3_counterexample :
    execReturn retSt =
      .next { globals := [], stack := [],
              frames := [⟨cl0, 0, [.str "keep", .int 9]⟩] } := by
  decide

/-- C3 amended: executing `Return` with frames remaining pops the
current frame (discarding its slots with it) and truncates the caller
frame's slot vector by the length of the returning frame's remaining
slots — removing that many of the caller's own values — then pushes the
popped return value onto the caller's slots. -/
theorem c3_return_amended :
    ∀ (gl : List (String × Value)) (stk : List Value) (fs : List CallFrame)
      (parent top : CallFrame) (ts : List Value) (result : Value),
      top.slots = ts ++ [result] →
      ts.length ≤ parent.slots.length →
      execReturn ⟨gl, fs ++ [parent, top], stk⟩ =
        .next ⟨gl,
          fs ++ [{ parent with
            slots := parent.slots.take (parent.slots.length - ts.length) ++ [result] }],
          stk⟩ := by
  intro gl stk fs parent top ts result hts hlen
  have h1 : fs ++ [parent, top] = (fs ++ [parent]) ++ [top] := by simp
  rw [h1]
  unfold execReturn
  simp only [List.getLast?_concat, List.dropLast_concat, hts]
  rw [if_neg (by simp [List.dropLast_concat]; omega)]
  simp [updateLast_concat, vecPush, List.dropLast_concat]

/-- C3 witness: the amended statement at a one-argument frame shape
(where the two junk slots left by `call` in the caller happen to be
consumed exactly). -/
theorem c3_return_amended_witness :
    execReturn ⟨[], [⟨cl0, 0, [.int 10, .int 20]⟩, ⟨cl0, 3, [.nil, .int 7]⟩], []⟩ =
      .next ⟨[], [⟨cl0, 0, [.int 10, .int 7]⟩], []⟩ :=
  c3_return_amended [] [] [] ⟨cl0, 0, [.int 10, .int 20]⟩ ⟨cl0, 3, [.nil, .int 7]⟩
    [.nil] (.int 7) rfl (by decide)

/-- C4 counterexample: the claim asserts `SetGlobal` on a bound name
does not pop, leaving the assigned value on top; on this state the
assigned value 5 is removed from the frame's slots. -/
theorem c4_counterexample :
    execSetGlobal "x" sgSt =
      .next { globals := [("x", .int 5)], stack := [],
              frames := [⟨cl0, 0, [.str "keep"]⟩] } := by
  decide

/-- C4 amended: `SetGlobal` on an absent name reports the runtime error
and inserts nothing; on a bound name it pops the top of the current
frame's slots and stores that value under the name (the assigned value
is removed from the stack). -/
theorem c4_set_global_amended :
    (∀ (name : String) (st : VMState),
      globalsContains st.globals name = false →
      execSetGlobal name st = .errored (applyRuntimeError st) ∧
      (applyRuntimeError st).globals = st.globals) ∧
    (∀ (name : String) (gl : List (String × Value)) (stk : List Value)
       (fs : List CallFrame) (top : CallFrame) (ss : List Value) (v : Value),
      globalsContains gl name = true →
      top.slots = ss ++ [v] →
      execSetGlobal name ⟨gl, fs ++ [top], stk⟩ =
        .next ⟨globalsInsert gl name v, fs ++ [{ top with slots := ss }], stk⟩) := by
  constructor
  · intro name st h
    exact ⟨by simp [execSetGlobal, h], applyRuntimeError_globals st⟩
  · intro name gl stk fs top ss v hc hts
    unfold execSetGlobal
    simp only [hc]
    simp [List.getLast?_concat, hts, updateLast_concat, List.dropLast_concat]

/-- C4 witness: both clauses of the amended statement at concrete
states. -/
theorem c4_set_global_amended_witness :
    execSetGlobal "y" sgSt = .errored (applyRuntimeError sgSt) ∧
    execSetGlobal "x" sgSt =
      .next ⟨globalsInsert [("x", .nil)] "x" (.int 5),
        [⟨cl0, 0, [.str "keep"]⟩], []⟩ :=
  ⟨(c4_set_global_amended.1 "y" sgSt (by decide)).1,
   c4_set_global_amended.2 "x" [("x", .nil)] [] [] ⟨cl0, 0, [.str "keep", .int 5]⟩
     [.str "keep"] (.int 5) (by decide) rfl⟩

/-- C7: the claim (and spec sections 4.E and 7) says a native call
consumes only the arguments and the callee and that a `RunTimeError`
result is surfaced through the runtime-error path; but `call_value`
truncates `argc` further slots after `native_call` has already popped
the arguments, pushes the native's result unconditionally and returns
true.  On this state (`throw("boom")` over one caller value) the
outcome is `.ok` — execution continues — with the `RunTimeError` left
on the stack and the caller's value `below` destroyed. -/
theorem c7_native_call_bug :
    call_value_native throw_native 1 natSt =
      .ok { globals := [], stack := [],
            frames := [⟨cl0, 0, [.runTimeError "boom"]⟩] } := by
  decide

/-- C8: the claim (and spec section 8) says the 65th call frame fails
with the runtime error "Stack overflow"; but `VM::call` contains no
check of the frame count against `FRAMES_MAX` (the constant is used
only as an initial capacity), so on a state with 64 active frames a
further zero-argument call succeeds and pushes the 65th frame. -/
theorem c8_no_stack_overflow_check :
    st64.frames.length = 64 ∧
    call cl0 0 false st64 = .ok st65 ∧
    st65.frames.length = 65 := by
  exact ⟨by decide, by decide, by decide⟩
